import Mathlib

/-!
Verification development for the VR Performance Suite control panel
(src/main.rs).  The Rust source is shallowly embedded: the flat settings
struct becomes a Lean structure, f32 fields become exact rationals, u32
fields become Nat, the serde_json persistence layer becomes an explicit
Json syntax tree with an encoder and a decoder, and every side-effecting
step of the apply pipeline becomes a pure function on an explicit World
record (registry values, dash/backup file existence, persisted file).
-/

set_option maxHeartbeats 1000000
set_option maxRecDepth 16384

/-- JSON documents, with numbers carried as exact rationals. -/
inductive Json where
  | null : Json
  | bool (b : Bool) : Json
  | num (q : ℚ) : Json
  | str (s : String) : Json
  | arr (xs : List Json) : Json
  | obj (kvs : List (String × Json)) : Json

/-- ASW modes, from enum ASWMode in src/main.rs. -/
inductive ASWMode where
  | Off | Auto | Force45FPS | Force30FPS
  deriving DecidableEq

/-- Foveated-rendering levels, from enum FoveatedLevel in src/main.rs. -/
inductive FoveatedLevel where
  | Off | Low | Medium | High | HighTop
  deriving DecidableEq

/-- GPU priorities, from enum GPUPriority in src/main.rs. -/
inductive GPUPriority where
  | Normal | High | Realtime
  deriving DecidableEq

/-- Upscaling kinds, from enum UpscalingType in src/main.rs. -/
inductive UpscalingType where
  | NIS | FSR | CAS
  deriving DecidableEq

/-- Power plans, from enum PowerPlan in src/main.rs. -/
inductive PowerPlan where
  | Balanced | HighPerformance | PowerSaver
  deriving DecidableEq

/-- The flat settings record, struct VRSettings in src/main.rs, fields in
declaration order.  f32 fields are modelled as exact rationals and u32
fields as Nat. -/
structure VRSettings where
  render_scale : ℚ
  use_openxr : Bool
  use_steamvr : Bool
  encode_bitrate_mbps : Nat
  encode_resolution_width : Nat
  encode_resolution_height : Nat
  link_sharpening : ℚ
  asw_enabled : Bool
  asw_mode : ASWMode
  foveated_rendering : Bool
  foveated_level : FoveatedLevel
  cpu_priority_boost : Bool
  gpu_priority : GPUPriority
  pixel_density : ℚ
  fov_scale : ℚ
  force_composition_layers : Bool
  disable_depth_submission : Bool
  turbo_mode : Bool
  auto_restart_on_freeze : Bool
  kill_oculus_client : Bool
  restart_threshold_seconds : Nat
  upscaling_enabled : Bool
  upscaling_type : UpscalingType
  upscaling_scale : ℚ
  sharpening_amount : ℚ
  contrast : ℚ
  saturation : ℚ
  frame_throttle_fps : Nat
  shake_reduction : Bool
  audio_switching : Bool
  super_sampling : ℚ
  mirror_window : Bool
  guardian_visibility : Bool
  cpu_affinity : Nat
  power_plan : PowerPlan
  oculus_killer_enabled : Bool
  relinked_mode : Bool
  disable_asw : Bool
  enable_steamvr_autostart : Bool
  enable_runtime_high_priority : Bool
  allow_other_software : Bool
  custom_startup_program : String
  custom_fps : Nat
  disable_oled_mura : Bool
  debug_logging : Bool
  disable_telemetry : Bool
  disable_login : Bool
  deriving DecidableEq

/-- Default settings record, impl Default for VRSettings in src/main.rs. -/
def defaultVRSettings : VRSettings where
  render_scale := 1.2
  use_openxr := true
  use_steamvr := false
  encode_bitrate_mbps := 300
  encode_resolution_width := 2784
  encode_resolution_height := 1472
  link_sharpening := 0.5
  asw_enabled := true
  asw_mode := ASWMode.Auto
  foveated_rendering := true
  foveated_level := FoveatedLevel.High
  cpu_priority_boost := true
  gpu_priority := GPUPriority.High
  pixel_density := 1.0
  fov_scale := 1.0
  force_composition_layers := false
  disable_depth_submission := false
  turbo_mode := false
  auto_restart_on_freeze := true
  kill_oculus_client := false
  restart_threshold_seconds := 10
  upscaling_enabled := false
  upscaling_type := UpscalingType.FSR
  upscaling_scale := 1.0
  sharpening_amount := 0.5
  contrast := 1.0
  saturation := 1.0
  frame_throttle_fps := 90
  shake_reduction := false
  audio_switching := true
  super_sampling := 1.0
  mirror_window := false
  guardian_visibility := true
  cpu_affinity := 0
  power_plan := PowerPlan.HighPerformance
  oculus_killer_enabled := false
  relinked_mode := false
  disable_asw := false
  enable_steamvr_autostart := true
  enable_runtime_high_priority := true
  allow_other_software := true
  custom_startup_program := ""
  custom_fps := 120
  disable_oled_mura := false
  debug_logging := false
  disable_telemetry := false
  disable_login := false

/-- First value stored under a given key in a JSON object body, the lookup
a serde struct deserializer performs per field. -/
def findField (kvs : List (String × Json)) (name : String) : Option Json :=
  match kvs with
  | [] => none
  | (k, v) :: rest => if k = name then some v else findField rest name

/-- Json accessor for f32 fields: any JSON number parses (numbers are
modelled as exact rationals). -/
def Json.asF32 : Json → Option ℚ
  | .num q => some q
  | _ => none

/-- Json accessor for u32 fields: the number must be a nonnegative integer
below 2^32, as serde requires when deserializing into u32. -/
def Json.asU32 : Json → Option Nat
  | .num q => if 0 ≤ q.num ∧ q.den = 1 ∧ q.num < 4294967296 then some q.num.toNat else none
  | _ => none

/-- Json accessor for bool fields. -/
def Json.asBool : Json → Option Bool
  | .bool b => some b
  | _ => none

/-- Json accessor for String fields. -/
def Json.asStr : Json → Option String
  | .str s => some s
  | _ => none

/-- Serde serialization of a unit enum variant: the variant name as a JSON
string.  ASWMode case. -/
def encodeASWMode : ASWMode → Json
  | .Off => .str "Off"
  | .Auto => .str "Auto"
  | .Force45FPS => .str "Force45FPS"
  | .Force30FPS => .str "Force30FPS"

/-- Serde deserialization of ASWMode from its variant-name string. -/
def decodeASWMode : Json → Option ASWMode
  | .str "Off" => some .Off
  | .str "Auto" => some .Auto
  | .str "Force45FPS" => some .Force45FPS
  | .str "Force30FPS" => some .Force30FPS
  | _ => none

/-- Serde serialization of FoveatedLevel. -/
def encodeFoveatedLevel : FoveatedLevel → Json
  | .Off => .str "Off"
  | .Low => .str "Low"
  | .Medium => .str "Medium"
  | .High => .str "High"
  | .HighTop => .str "HighTop"

/-- Serde deserialization of FoveatedLevel. -/
def decodeFoveatedLevel : Json → Option FoveatedLevel
  | .str "Off" => some .Off
  | .str "Low" => some .Low
  | .str "Medium" => some .Medium
  | .str "High" => some .High
  | .str "HighTop" => some .HighTop
  | _ => none

/-- Serde serialization of GPUPriority. -/
def encodeGPUPriority : GPUPriority → Json
  | .Normal => .str "Normal"
  | .High => .str "High"
  | .Realtime => .str "Realtime"

/-- Serde deserialization of GPUPriority. -/
def decodeGPUPriority : Json → Option GPUPriority
  | .str "Normal" => some .Normal
  | .str "High" => some .High
  | .str "Realtime" => some .Realtime
  | _ => none

/-- Serde serialization of UpscalingType. -/
def encodeUpscalingType : UpscalingType → Json
  | .NIS => .str "NIS"
  | .FSR => .str "FSR"
  | .CAS => .str "CAS"

/-- Serde deserialization of UpscalingType. -/
def decodeUpscalingType : Json → Option UpscalingType
  | .str "NIS" => some .NIS
  | .str "FSR" => some .FSR
  | .str "CAS" => some .CAS
  | _ => none

/-- Serde serialization of PowerPlan. -/
def encodePowerPlan : PowerPlan → Json
  | .Balanced => .str "Balanced"
  | .HighPerformance => .str "HighPerformance"
  | .PowerSaver => .str "PowerSaver"

/-- Serde deserialization of PowerPlan. -/
def decodePowerPlan : Json → Option PowerPlan
  | .str "Balanced" => some .Balanced
  | .str "HighPerformance" => some .HighPerformance
  | .str "PowerSaver" => some .PowerSaver
  | _ => none

/-- Field names of VRSettings in declaration order, as serde writes and
reads them. -/
def settingsFieldNames : List String :=
  ["render_scale", "use_openxr", "use_steamvr", "encode_bitrate_mbps",
   "encode_resolution_width", "encode_resolution_height", "link_sharpening",
   "asw_enabled", "asw_mode", "foveated_rendering", "foveated_level",
   "cpu_priority_boost", "gpu_priority", "pixel_density", "fov_scale",
   "force_composition_layers", "disable_depth_submission", "turbo_mode",
   "auto_restart_on_freeze", "kill_oculus_client", "restart_threshold_seconds",
   "upscaling_enabled", "upscaling_type", "upscaling_scale",
   "sharpening_amount", "contrast", "saturation", "frame_throttle_fps",
   "shake_reduction", "audio_switching", "super_sampling", "mirror_window",
   "guardian_visibility", "cpu_affinity", "power_plan",
   "oculus_killer_enabled", "relinked_mode", "disable_asw",
   "enable_steamvr_autostart", "enable_runtime_high_priority",
   "allow_other_software", "custom_startup_program", "custom_fps",
   "disable_oled_mura", "debug_logging", "disable_telemetry", "disable_login"]

/-- Member list serde writes for a settings record: one pair per field,
in declaration order. -/
def encodeSettingsFields (s : VRSettings) : List (String × Json) :=
    [("render_scale", .num s.render_scale),
     ("use_openxr", .bool s.use_openxr),
     ("use_steamvr", .bool s.use_steamvr),
     ("encode_bitrate_mbps", .num (s.encode_bitrate_mbps : ℚ)),
     ("encode_resolution_width", .num (s.encode_resolution_width : ℚ)),
     ("encode_resolution_height", .num (s.encode_resolution_height : ℚ)),
     ("link_sharpening", .num s.link_sharpening),
     ("asw_enabled", .bool s.asw_enabled),
     ("asw_mode", encodeASWMode s.asw_mode),
     ("foveated_rendering", .bool s.foveated_rendering),
     ("foveated_level", encodeFoveatedLevel s.foveated_level),
     ("cpu_priority_boost", .bool s.cpu_priority_boost),
     ("gpu_priority", encodeGPUPriority s.gpu_priority),
     ("pixel_density", .num s.pixel_density),
     ("fov_scale", .num s.fov_scale),
     ("force_composition_layers", .bool s.force_composition_layers),
     ("disable_depth_submission", .bool s.disable_depth_submission),
     ("turbo_mode", .bool s.turbo_mode),
     ("auto_restart_on_freeze", .bool s.auto_restart_on_freeze),
     ("kill_oculus_client", .bool s.kill_oculus_client),
     ("restart_threshold_seconds", .num (s.restart_threshold_seconds : ℚ)),
     ("upscaling_enabled", .bool s.upscaling_enabled),
     ("upscaling_type", encodeUpscalingType s.upscaling_type),
     ("upscaling_scale", .num s.upscaling_scale),
     ("sharpening_amount", .num s.sharpening_amount),
     ("contrast", .num s.contrast),
     ("saturation", .num s.saturation),
     ("frame_throttle_fps", .num (s.frame_throttle_fps : ℚ)),
     ("shake_reduction", .bool s.shake_reduction),
     ("audio_switching", .bool s.audio_switching),
     ("super_sampling", .num s.super_sampling),
     ("mirror_window", .bool s.mirror_window),
     ("guardian_visibility", .bool s.guardian_visibility),
     ("cpu_affinity", .num (s.cpu_affinity : ℚ)),
     ("power_plan", encodePowerPlan s.power_plan),
     ("oculus_killer_enabled", .bool s.oculus_killer_enabled),
     ("relinked_mode", .bool s.relinked_mode),
     ("disable_asw", .bool s.disable_asw),
     ("enable_steamvr_autostart", .bool s.enable_steamvr_autostart),
     ("enable_runtime_high_priority", .bool s.enable_runtime_high_priority),
     ("allow_other_software", .bool s.allow_other_software),
     ("custom_startup_program", .str s.custom_startup_program),
     ("custom_fps", .num (s.custom_fps : ℚ)),
     ("disable_oled_mura", .bool s.disable_oled_mura),
     ("debug_logging", .bool s.debug_logging),
     ("disable_telemetry", .bool s.disable_telemetry),
     ("disable_login", .bool s.disable_login)]

/-- Serde_json serialization of the whole settings record
(serde_json::to_string_pretty in save_settings, modulo whitespace): one
JSON object, one member per field, in declaration order. -/
def encodeVRSettings (s : VRSettings) : Json :=
  .obj (encodeSettingsFields s)

/-- Intermediate record for decoder fields 1 to 8, split only so each compiled function stays small. -/
structure SettingsPart1 where
  render_scale : ℚ
  use_openxr : Bool
  use_steamvr : Bool
  encode_bitrate_mbps : Nat
  encode_resolution_width : Nat
  encode_resolution_height : Nat
  link_sharpening : ℚ
  asw_enabled : Bool

/-- Decoder for the fields of SettingsPart1, each obtained by name lookup in the object body. -/
def decodeSettingsPart1 (kvs : List (String × Json)) : Option SettingsPart1 := do
  let render_scale ← (findField kvs "render_scale").bind Json.asF32
  let use_openxr ← (findField kvs "use_openxr").bind Json.asBool
  let use_steamvr ← (findField kvs "use_steamvr").bind Json.asBool
  let encode_bitrate_mbps ← (findField kvs "encode_bitrate_mbps").bind Json.asU32
  let encode_resolution_width ← (findField kvs "encode_resolution_width").bind Json.asU32
  let encode_resolution_height ← (findField kvs "encode_resolution_height").bind Json.asU32
  let link_sharpening ← (findField kvs "link_sharpening").bind Json.asF32
  let asw_enabled ← (findField kvs "asw_enabled").bind Json.asBool
  pure { render_scale, use_openxr, use_steamvr, encode_bitrate_mbps, encode_resolution_width, encode_resolution_height, link_sharpening, asw_enabled }

/-- Intermediate record for decoder fields 9 to 16, split only so each compiled function stays small. -/
structure SettingsPart2 where
  asw_mode : ASWMode
  foveated_rendering : Bool
  foveated_level : FoveatedLevel
  cpu_priority_boost : Bool
  gpu_priority : GPUPriority
  pixel_density : ℚ
  fov_scale : ℚ
  force_composition_layers : Bool

/-- Decoder for the fields of SettingsPart2, each obtained by name lookup in the object body. -/
def decodeSettingsPart2 (kvs : List (String × Json)) : Option SettingsPart2 := do
  let asw_mode ← (findField kvs "asw_mode").bind decodeASWMode
  let foveated_rendering ← (findField kvs "foveated_rendering").bind Json.asBool
  let foveated_level ← (findField kvs "foveated_level").bind decodeFoveatedLevel
  let cpu_priority_boost ← (findField kvs "cpu_priority_boost").bind Json.asBool
  let gpu_priority ← (findField kvs "gpu_priority").bind decodeGPUPriority
  let pixel_density ← (findField kvs "pixel_density").bind Json.asF32
  let fov_scale ← (findField kvs "fov_scale").bind Json.asF32
  let force_composition_layers ← (findField kvs "force_composition_layers").bind Json.asBool
  pure { asw_mode, foveated_rendering, foveated_level, cpu_priority_boost, gpu_priority, pixel_density, fov_scale, force_composition_layers }

/-- Intermediate record for decoder fields 17 to 24, split only so each compiled function stays small. -/
structure SettingsPart3 where
  disable_depth_submission : Bool
  turbo_mode : Bool
  auto_restart_on_freeze : Bool
  kill_oculus_client : Bool
  restart_threshold_seconds : Nat
  upscaling_enabled : Bool
  upscaling_type : UpscalingType
  upscaling_scale : ℚ

/-- Decoder for the fields of SettingsPart3, each obtained by name lookup in the object body. -/
def decodeSettingsPart3 (kvs : List (String × Json)) : Option SettingsPart3 := do
  let disable_depth_submission ← (findField kvs "disable_depth_submission").bind Json.asBool
  let turbo_mode ← (findField kvs "turbo_mode").bind Json.asBool
  let auto_restart_on_freeze ← (findField kvs "auto_restart_on_freeze").bind Json.asBool
  let kill_oculus_client ← (findField kvs "kill_oculus_client").bind Json.asBool
  let restart_threshold_seconds ← (findField kvs "restart_threshold_seconds").bind Json.asU32
  let upscaling_enabled ← (findField kvs "upscaling_enabled").bind Json.asBool
  let upscaling_type ← (findField kvs "upscaling_type").bind decodeUpscalingType
  let upscaling_scale ← (findField kvs "upscaling_scale").bind Json.asF32
  pure { disable_depth_submission, turbo_mode, auto_restart_on_freeze, kill_oculus_client, restart_threshold_seconds, upscaling_enabled, upscaling_type, upscaling_scale }

/-- Intermediate record for decoder fields 25 to 32, split only so each compiled function stays small. -/
structure SettingsPart4 where
  sharpening_amount : ℚ
  contrast : ℚ
  saturation : ℚ
  frame_throttle_fps : Nat
  shake_reduction : Bool
  audio_switching : Bool
  super_sampling : ℚ
  mirror_window : Bool

/-- Decoder for the fields of SettingsPart4, each obtained by name lookup in the object body. -/
def decodeSettingsPart4 (kvs : List (String × Json)) : Option SettingsPart4 := do
  let sharpening_amount ← (findField kvs "sharpening_amount").bind Json.asF32
  let contrast ← (findField kvs "contrast").bind Json.asF32
  let saturation ← (findField kvs "saturation").bind Json.asF32
  let frame_throttle_fps ← (findField kvs "frame_throttle_fps").bind Json.asU32
  let shake_reduction ← (findField kvs "shake_reduction").bind Json.asBool
  let audio_switching ← (findField kvs "audio_switching").bind Json.asBool
  let super_sampling ← (findField kvs "super_sampling").bind Json.asF32
  let mirror_window ← (findField kvs "mirror_window").bind Json.asBool
  pure { sharpening_amount, contrast, saturation, frame_throttle_fps, shake_reduction, audio_switching, super_sampling, mirror_window }

/-- Intermediate record for decoder fields 33 to 40, split only so each compiled function stays small. -/
structure SettingsPart5 where
  guardian_visibility : Bool
  cpu_affinity : Nat
  power_plan : PowerPlan
  oculus_killer_enabled : Bool
  relinked_mode : Bool
  disable_asw : Bool
  enable_steamvr_autostart : Bool
  enable_runtime_high_priority : Bool

/-- Decoder for the fields of SettingsPart5, each obtained by name lookup in the object body. -/
def decodeSettingsPart5 (kvs : List (String × Json)) : Option SettingsPart5 := do
  let guardian_visibility ← (findField kvs "guardian_visibility").bind Json.asBool
  let cpu_affinity ← (findField kvs "cpu_affinity").bind Json.asU32
  let power_plan ← (findField kvs "power_plan").bind decodePowerPlan
  let oculus_killer_enabled ← (findField kvs "oculus_killer_enabled").bind Json.asBool
  let relinked_mode ← (findField kvs "relinked_mode").bind Json.asBool
  let disable_asw ← (findField kvs "disable_asw").bind Json.asBool
  let enable_steamvr_autostart ← (findField kvs "enable_steamvr_autostart").bind Json.asBool
  let enable_runtime_high_priority ← (findField kvs "enable_runtime_high_priority").bind Json.asBool
  pure { guardian_visibility, cpu_affinity, power_plan, oculus_killer_enabled, relinked_mode, disable_asw, enable_steamvr_autostart, enable_runtime_high_priority }

/-- Intermediate record for decoder fields 41 to 47, split only so each compiled function stays small. -/
structure SettingsPart6 where
  allow_other_software : Bool
  custom_startup_program : String
  custom_fps : Nat
  disable_oled_mura : Bool
  debug_logging : Bool
  disable_telemetry : Bool
  disable_login : Bool

/-- Decoder for the fields of SettingsPart6, each obtained by name lookup in the object body. -/
def decodeSettingsPart6 (kvs : List (String × Json)) : Option SettingsPart6 := do
  let allow_other_software ← (findField kvs "allow_other_software").bind Json.asBool
  let custom_startup_program ← (findField kvs "custom_startup_program").bind Json.asStr
  let custom_fps ← (findField kvs "custom_fps").bind Json.asU32
  let disable_oled_mura ← (findField kvs "disable_oled_mura").bind Json.asBool
  let debug_logging ← (findField kvs "debug_logging").bind Json.asBool
  let disable_telemetry ← (findField kvs "disable_telemetry").bind Json.asBool
  let disable_login ← (findField kvs "disable_login").bind Json.asBool
  pure { allow_other_software, custom_startup_program, custom_fps, disable_oled_mura, debug_logging, disable_telemetry, disable_login }

/-- Serde_json deserialization of a whole settings record
(serde_json::from_str in VRPerformanceApp::default): the document must be
an object, every field must be present with the right type (missing fields
are not individually defaulted), unknown members are ignored because each
field is obtained by name lookup.  The decode is split into six chunks
purely to keep each compiled function small; the field set, order and
per-field decoding match the serde derive on struct VRSettings. -/
def decodeVRSettings (j : Json) : Option VRSettings :=
  match j with
  | .obj kvs => do
      let p1 ← decodeSettingsPart1 kvs
      let p2 ← decodeSettingsPart2 kvs
      let p3 ← decodeSettingsPart3 kvs
      let p4 ← decodeSettingsPart4 kvs
      let p5 ← decodeSettingsPart5 kvs
      let p6 ← decodeSettingsPart6 kvs
      pure
        {
          render_scale := p1.render_scale,
          use_openxr := p1.use_openxr,
          use_steamvr := p1.use_steamvr,
          encode_bitrate_mbps := p1.encode_bitrate_mbps,
          encode_resolution_width := p1.encode_resolution_width,
          encode_resolution_height := p1.encode_resolution_height,
          link_sharpening := p1.link_sharpening,
          asw_enabled := p1.asw_enabled,
          asw_mode := p2.asw_mode,
          foveated_rendering := p2.foveated_rendering,
          foveated_level := p2.foveated_level,
          cpu_priority_boost := p2.cpu_priority_boost,
          gpu_priority := p2.gpu_priority,
          pixel_density := p2.pixel_density,
          fov_scale := p2.fov_scale,
          force_composition_layers := p2.force_composition_layers,
          disable_depth_submission := p3.disable_depth_submission,
          turbo_mode := p3.turbo_mode,
          auto_restart_on_freeze := p3.auto_restart_on_freeze,
          kill_oculus_client := p3.kill_oculus_client,
          restart_threshold_seconds := p3.restart_threshold_seconds,
          upscaling_enabled := p3.upscaling_enabled,
          upscaling_type := p3.upscaling_type,
          upscaling_scale := p3.upscaling_scale,
          sharpening_amount := p4.sharpening_amount,
          contrast := p4.contrast,
          saturation := p4.saturation,
          frame_throttle_fps := p4.frame_throttle_fps,
          shake_reduction := p4.shake_reduction,
          audio_switching := p4.audio_switching,
          super_sampling := p4.super_sampling,
          mirror_window := p4.mirror_window,
          guardian_visibility := p5.guardian_visibility,
          cpu_affinity := p5.cpu_affinity,
          power_plan := p5.power_plan,
          oculus_killer_enabled := p5.oculus_killer_enabled,
          relinked_mode := p5.relinked_mode,
          disable_asw := p5.disable_asw,
          enable_steamvr_autostart := p5.enable_steamvr_autostart,
          enable_runtime_high_priority := p5.enable_runtime_high_priority,
          allow_other_software := p6.allow_other_software,
          custom_startup_program := p6.custom_startup_program,
          custom_fps := p6.custom_fps,
          disable_oled_mura := p6.disable_oled_mura,
          debug_logging := p6.debug_logging,
          disable_telemetry := p6.disable_telemetry,
          disable_login := p6.disable_login
        }
  | _ => none

/-- U32 range invariant the Rust type system gives every u32 field of the
live record. -/
def VRSettings.wfU32 (s : VRSettings) : Prop :=
  s.encode_bitrate_mbps < 4294967296 ∧
  s.encode_resolution_width < 4294967296 ∧
  s.encode_resolution_height < 4294967296 ∧
  s.restart_threshold_seconds < 4294967296 ∧
  s.frame_throttle_fps < 4294967296 ∧
  s.cpu_affinity < 4294967296 ∧
  s.custom_fps < 4294967296

/-- Test whether the first list is an initial segment of the second
(character lists). -/
def firstSegment : List Char → List Char → Bool
  | [], _ => true
  | _ :: _, [] => false
  | a :: as, b :: bs => a = b && firstSegment as bs

/-- Test whether the needle occurs contiguously inside the haystack
(character lists). -/
def hasSubList (needle : List Char) : List Char → Bool
  | [] => firstSegment needle []
  | b :: bs => firstSegment needle (b :: bs) || hasSubList needle bs

/-- Rust str::contains with a string pattern: substring containment. -/
def strContains (hay needle : String) : Bool :=
  hasSubList needle.data hay.data

/-- Rust float-to-u32 cast (expr as u32): truncation toward zero,
saturating at the bounds of u32. -/
def rustAsU32 (x : ℚ) : Nat :=
  if x < 0 then 0 else min (Int.toNat ⌊x⌋) 4294967295

/-- Status column of a monitored process, enum ProcessStatus in
src/main.rs. -/
inductive ProcessStatus where
  | Running | Stopped | Frozen | Restarting
  deriving DecidableEq

/-- One row of the monitor snapshot, struct ProcessInfo in src/main.rs.
cpu_usage is the f32 percentage as an exact rational, memory_mb the u64
megabyte count as Nat. -/
structure ProcessInfo where
  name : String
  status : ProcessStatus
  pid : Option Nat
  cpu_usage : ℚ
  memory_mb : Nat
  deriving DecidableEq

/-- One row of the OS process table as the sysinfo crate reports it:
name, pid, live CPU percentage, resident memory in bytes. -/
structure OSProc where
  name : String
  pid : Nat
  cpu_usage : ℚ
  memory : Nat
  deriving DecidableEq

/-- Fixed catalog of monitored process names, vr_processes in
update_processes, in source order (which is also display order). -/
def vrProcesses : List String :=
  ["OVRServer_x64.exe", "OculusClient.exe", "vrserver.exe",
   "vrdashboard.exe", "vrcompositor.exe"]

/-- Modelled from the spec: the process-name query
sys.processes_by_name(name).next() is implemented inside the sysinfo
dependency, whose version (Cargo.toml) is not under src/, so its matching
rule is taken from the spec: the first process in the OS table matching
that exact name. -/
def processesByName (table : List OSProc) (name : String) : Option OSProc :=
  table.find? (fun p => p.name = name)

/-- Snapshot row built for one catalog name, the loop body of
update_processes: Running with live pid/cpu/memory when the query finds a
process (memory converted bytes to MB by two integer divisions by 1024),
otherwise Stopped with pid none and zero usage. -/
def processEntry (table : List OSProc) (name : String) : ProcessInfo :=
  match processesByName table name with
  | some p =>
      { name := name, status := ProcessStatus.Running, pid := some p.pid,
        cpu_usage := p.cpu_usage, memory_mb := p.memory / 1024 / 1024 }
  | none =>
      { name := name, status := ProcessStatus.Stopped, pid := none,
        cpu_usage := 0, memory_mb := 0 }

/-- Monitor poll, fn update_processes: the previous snapshot is discarded
and one row is pushed per catalog name, in catalog order. -/
def updateProcesses (table : List OSProc) : List ProcessInfo :=
  vrProcesses.map (processEntry table)

/-- External state touched by the apply pipeline: the Oculus Link registry
values (HKCU RemoteHeadset), the OpenXR active-runtime value (HKLM), the
ASW debug value, the telemetry flag, the CoreChannel update-channel value,
the last power-plan GUID passed to powercfg, the openxr_toolkit.ini
content, existence of the live dash executable and of its backup, the
process-priority assignments made, and the persisted settings file. -/
structure World where
  bitrate : Option Nat
  encodeWidth : Option Nat
  encodeHeight : Option Nat
  sharpEnabled : Option Nat
  sharpStrength : Option Nat
  mirrorWindow : Option Nat
  guardianVisibility : Option Nat
  activeRuntime : Option String
  aswValue : Option Nat
  telemetryEnabled : Option Nat
  coreChannel : Option String
  powerPlanGuid : Option String
  toolkitIni : Option String
  dashExists : Bool
  bakExists : Bool
  priorities : List (Nat × GPUPriority)
  settingsFile : Option Json

/-- Blank world: no registry value written yet, no settings file, live
dash executable present, no backup. -/
def World.init : World where
  bitrate := none
  encodeWidth := none
  encodeHeight := none
  sharpEnabled := none
  sharpStrength := none
  mirrorWindow := none
  guardianVisibility := none
  activeRuntime := none
  aswValue := none
  telemetryEnabled := none
  coreChannel := none
  powerPlanGuid := none
  toolkitIni := none
  dashExists := true
  bakExists := false
  priorities := []
  settingsFile := none

/-- Step 1 of the pipeline, fn apply_oculus_link_settings: write bitrate,
encode width/height, the sharpening-enabled flag (1 when link_sharpening
is greater than 0, else 0) and the sharpening strength, computed as
(link_sharpening * 100.0) as u32, to the RemoteHeadset registry key. -/
def applyOculusLinkSettings (s : VRSettings) (w : World) : World :=
  { w with
    bitrate := some s.encode_bitrate_mbps,
    encodeWidth := some s.encode_resolution_width,
    encodeHeight := some s.encode_resolution_height,
    sharpEnabled := some (if 0 < s.link_sharpening then 1 else 0),
    sharpStrength := some (rustAsU32 (s.link_sharpening * 100)) }

/-- Step 2 of the pipeline, fn apply_openxr_settings: set the OpenXR
ActiveRuntime value to oculus when use_openxr holds, else to steamvr when
use_steamvr holds, else leave the key untouched. -/
def applyOpenXRSettings (s : VRSettings) (w : World) : World :=
  if s.use_openxr then { w with activeRuntime := some "oculus" }
  else if s.use_steamvr then { w with activeRuntime := some "steamvr" }
  else w

/-- Step 3 of the pipeline, fn apply_process_priorities: when
cpu_priority_boost holds, assign the priority class derived from
gpu_priority to every snapshot row with a live pid whose name contains
OVRServer or vrserver. -/
def applyProcessPriorities (s : VRSettings) (procs : List ProcessInfo)
    (w : World) : World :=
  if s.cpu_priority_boost then
    { w with
      priorities :=
        procs.filterMap (fun p =>
          match p.pid with
          | some pid =>
              if strContains p.name "OVRServer" || strContains p.name "vrserver" then
                some (pid, s.gpu_priority)
              else none
          | none => none) }
  else w

/-- ASW registry code for each mode, the match in fn apply_asw_settings. -/
def aswCode : ASWMode → Nat
  | .Off => 0
  | .Auto => 1
  | .Force45FPS => 2
  | .Force30FPS => 3

/-- Step 4 of the pipeline, fn apply_asw_settings: write the ASW code to
the Oculus Debug registry key. -/
def applyASWSettings (s : VRSettings) (w : World) : World :=
  { w with aswValue := some (aswCode s.asw_mode) }

/-- Power-plan GUID for each plan, the match in
fn apply_additional_settings. -/
def powerPlanGuidOf : PowerPlan → String
  | .Balanced => "381b4222-f694-41f0-9685-ff5bb260df2e"
  | .HighPerformance => "8c5e7fda-e8bf-4a96-9a85-a6e23a8c635c"
  | .PowerSaver => "a1841308-3541-4fab-bc81-f71556f20b4a"

/-- Step 5 of the pipeline, fn apply_additional_settings: switch the power
plan through powercfg, write the mirror-window and guardian-visibility
flags to RemoteHeadset, and overwrite openxr_toolkit.ini with the
upscaling flag line. -/
def applyAdditionalSettings (s : VRSettings) (w : World) : World :=
  { w with
    powerPlanGuid := some (powerPlanGuidOf s.power_plan),
    mirrorWindow := some (if s.mirror_window then 1 else 0),
    guardianVisibility := some (if s.guardian_visibility then 1 else 0),
    toolkitIni :=
      some ("upscaling_enabled = " ++ (if s.upscaling_enabled then "true" else "false")) }

/-- Step 6 of the pipeline, fn toggle_oculus_killer.  Enable: when no
backup exists, rename the live dash executable to the backup name (the
rename succeeds only when the live file exists, failure is swallowed),
then set CoreChannel to NO_UPDATES.  Disable: when a backup exists, delete
the live file and rename the backup back.  The surrounding service
stop/start calls touch no modelled state. -/
def toggleOculusKiller (enable : Bool) (w : World) : World :=
  if enable then
    let w1 :=
      if !w.bakExists then
        if w.dashExists then { w with dashExists := false, bakExists := true }
        else w
      else w
    { w1 with coreChannel := some "NO_UPDATES" }
  else
    if w.bakExists then { w with dashExists := true, bakExists := false }
    else w

/-- Step 7 of the pipeline, fn apply_relinked_settings: when relinked_mode
holds, force disable_telemetry, disable_login and oculus_killer_enabled to
true on the in-memory record, re-run the killer toggle with true, write
the telemetry flag (guarded on the now-true disable_telemetry), force
enable_runtime_high_priority to true and re-run the priority step, then
force allow_other_software to true and re-run the runtime-selection step.
Otherwise nothing happens. -/
def applyRelinkedSettings (s : VRSettings) (procs : List ProcessInfo)
    (w : World) : VRSettings × World :=
  if s.relinked_mode then
    let s1 :=
      { s with disable_telemetry := true, disable_login := true,
               oculus_killer_enabled := true }
    let w1 := toggleOculusKiller true w
    let w2 :=
      if s1.disable_telemetry then { w1 with telemetryEnabled := some 0 } else w1
    let s2 := { s1 with enable_runtime_high_priority := true }
    let w3 := applyProcessPriorities s2 procs w2
    let s3 := { s2 with allow_other_software := true }
    let w4 := applyOpenXRSettings s3 w3
    (s3, w4)
  else (s, w)

/-- Settings persistence, fn save_settings: serialize the whole record and
overwrite the settings file. -/
def saveSettings (s : VRSettings) (w : World) : World :=
  { w with settingsFile := some (encodeVRSettings s) }

/-- Settings load, the body of VRPerformanceApp::default: start from the
default record and overwrite it wholesale only when the file exists, is
readable and deserializes; any failure silently keeps the defaults. -/
def loadSettings (w : World) : VRSettings :=
  match w.settingsFile with
  | none => defaultVRSettings
  | some j => (decodeVRSettings j).getD defaultVRSettings

/-- The whole pipeline, fn apply_settings: the six side-effect steps in
source order, then the ReLinked step (which may mutate the record), then
persistence of the possibly-mutated record. -/
def applySettings (s : VRSettings) (procs : List ProcessInfo)
    (w : World) : VRSettings × World :=
  let w1 := applyOculusLinkSettings s w
  let w2 := applyOpenXRSettings s w1
  let w3 := applyProcessPriorities s procs w2
  let w4 := applyASWSettings s w3
  let w5 := applyAdditionalSettings s w4
  let w6 := toggleOculusKiller s.oculus_killer_enabled w5
  let sw := applyRelinkedSettings s procs w6
  (sw.1, saveSettings sw.1 sw.2)

/-- Oculus runtime launch path, used by fn restart_process and
fn launch_runtime. -/
def oculusRuntimePath : String :=
  "C:\\Program Files\\Oculus\\Support\\oculus-runtime\\OVRServer_x64.exe"

/-- SteamVR server launch path, used by fn restart_process. -/
def steamVRServerPath : String :=
  "C:\\Program Files (x86)\\Steam\\steamapps\\common\\SteamVR\\bin\\win64\\vrserver.exe"

/-- Observable effects of one restart action: which executable name is
force-terminated, the fixed delay in milliseconds, and which launch path
is spawned afterwards, if any. -/
structure RestartAction where
  killed : String
  delayMs : Nat
  spawned : Option String
  deriving DecidableEq

/-- Process restart, fn restart_process: taskkill the named process, sleep
500 ms, then spawn the Oculus runtime when the name contains OVRServer,
else the SteamVR server when the name contains vrserver, else nothing. -/
def restartProcess (name : String) : RestartAction :=
  { killed := name, delayMs := 500,
    spawned :=
      if strContains name "OVRServer" then some oculusRuntimePath
      else if strContains name "vrserver" then some steamVRServerPath
      else none }

/-- Drop the first member of a JSON object, used to form a document that
is complete except for one missing required field. -/
def objDropFirst : Json → Json
  | .obj kvs => .obj kvs.tail
  | j => j

/-- Projection lemma: the snapshot row keeps the catalog name whether or
not the process was found. -/
theorem processEntry_name (table : List OSProc) (name : String) :
    (processEntry table name).name = name := by
  unfold processEntry
  cases processesByName table name <;> rfl

/-- Lookup skips a leading member whose key differs. -/
theorem findField_cons_ne {k name : String} {v : Json}
    {kvs : List (String × Json)} (h : k ≠ name) :
    findField ((k, v) :: kvs) name = findField kvs name := by
  simp [findField, h]

/-- C7: the runtime-selection step writes the OpenXR active runtime as
oculus exactly when use_openxr is true, as steamvr exactly when
use_openxr is false and use_steamvr is true, and writes nothing (the
world is untouched) when both are false. -/
theorem c7_runtime_selection (s : VRSettings) (w : World) :
    (s.use_openxr = true → (applyOpenXRSettings s w).activeRuntime = some "oculus")
    ∧ (s.use_openxr = false → s.use_steamvr = true →
        (applyOpenXRSettings s w).activeRuntime = some "steamvr")
    ∧ (s.use_openxr = false → s.use_steamvr = false →
        applyOpenXRSettings s w = w) := by
  refine ⟨fun h => by simp [applyOpenXRSettings, h],
          fun h1 h2 => by simp [applyOpenXRSettings, h1, h2],
          fun h1 h2 => by simp [applyOpenXRSettings, h1, h2]⟩

/-- Witness for c7_runtime_selection at three concrete records. -/
theorem c7_runtime_selection_witness :
    (applyOpenXRSettings defaultVRSettings World.init).activeRuntime = some "oculus"
    ∧ (applyOpenXRSettings
        { defaultVRSettings with use_openxr := false, use_steamvr := true }
        World.init).activeRuntime = some "steamvr"
    ∧ applyOpenXRSettings
        { defaultVRSettings with use_openxr := false, use_steamvr := false }
        World.init = World.init :=
  ⟨(c7_runtime_selection defaultVRSettings World.init).1 rfl,
   (c7_runtime_selection _ World.init).2.1 rfl rfl,
   (c7_runtime_selection _ World.init).2.2 rfl rfl⟩

/-- C8: the Disabled transition of the oculus killer, invoked when no
backup exists, changes nothing at all: the whole world is returned
untouched and no error is raised. -/
theorem c8_disable_without_backup_noop (w : World) (h : w.bakExists = false) :
    toggleOculusKiller false w = w := by
  simp [toggleOculusKiller, h]

/-- Witness for c8_disable_without_backup_noop on the blank world. -/
theorem c8_disable_without_backup_noop_witness :
    toggleOculusKiller false World.init = World.init :=
  c8_disable_without_backup_noop World.init rfl

/-- C2: with relinked_mode set, the apply pipeline forces
disable_telemetry, disable_login and oculus_killer_enabled to true on the
in-memory record, and the record persisted at the end of apply is exactly
that mutated record, so all three persisted fields are true whatever
their initial values. -/
theorem c2_relinked_forces_flags (s : VRSettings) (procs : List ProcessInfo)
    (w : World) (h : s.relinked_mode = true) :
    (applySettings s procs w).1.disable_telemetry = true
    ∧ (applySettings s procs w).1.disable_login = true
    ∧ (applySettings s procs w).1.oculus_killer_enabled = true
    ∧ (applySettings s procs w).2.settingsFile
        = some (encodeVRSettings (applySettings s procs w).1) := by
  simp [applySettings, applyRelinkedSettings, h, saveSettings,
        applyOpenXRSettings, applyProcessPriorities]

/-- Witness for c2_relinked_forces_flags: relinked record whose three
fields start false. -/
theorem c2_relinked_forces_flags_witness :
    (applySettings { defaultVRSettings with relinked_mode := true } []
        World.init).1.disable_telemetry = true
    ∧ (applySettings { defaultVRSettings with relinked_mode := true } []
        World.init).1.disable_login = true
    ∧ (applySettings { defaultVRSettings with relinked_mode := true } []
        World.init).1.oculus_killer_enabled = true :=
  (fun h => ⟨h.1, h.2.1, h.2.2.1⟩)
    (c2_relinked_forces_flags { defaultVRSettings with relinked_mode := true }
      [] World.init rfl)

/-- C10: with relinked_mode clear, no step of the apply pipeline writes
the in-memory record (the record-mutating ReLinked step is guarded on
relinked_mode), so the record persisted at the end of apply is the input
record, field for field. -/
theorem c10_apply_preserves_record (s : VRSettings) (procs : List ProcessInfo)
    (w : World) (h : s.relinked_mode = false) :
    (applySettings s procs w).1 = s
    ∧ (applySettings s procs w).2.settingsFile = some (encodeVRSettings s) := by
  simp [applySettings, applyRelinkedSettings, h, saveSettings]

/-- Witness for c10_apply_preserves_record on the default record. -/
theorem c10_apply_preserves_record_witness :
    (applySettings defaultVRSettings [] World.init).1 = defaultVRSettings
    ∧ (applySettings defaultVRSettings [] World.init).2.settingsFile
        = some (encodeVRSettings defaultVRSettings) :=
  c10_apply_preserves_record defaultVRSettings [] World.init rfl

/-- C3 counterexample: from a filesystem state where the live dash
executable and the backup both exist, invoking the Enabled transition
twice leaves the live executable still present, contradicting the claim
that every filesystem state ends with the live file absent. -/
theorem c3_enable_twice_counterexample :
    (toggleOculusKiller true (toggleOculusKiller true
        { World.init with dashExists := true, bakExists := true })).dashExists
      = true := by
  rfl

/-- C3 amended: from any filesystem state where exactly one of the live
dash executable and its backup exists, invoking Enabled twice leaves the
single backup present and the live file absent, and the second invocation
finds the backup already existing and changes neither file, so an
existing backup is never clobbered. -/
theorem c3_enable_twice_idempotent (w : World)
    (h : w.dashExists ≠ w.bakExists) :
    (toggleOculusKiller true (toggleOculusKiller true w)).bakExists = true
    ∧ (toggleOculusKiller true (toggleOculusKiller true w)).dashExists = false
    ∧ (toggleOculusKiller true (toggleOculusKiller true w)).dashExists
        = (toggleOculusKiller true w).dashExists
    ∧ (toggleOculusKiller true (toggleOculusKiller true w)).bakExists
        = (toggleOculusKiller true w).bakExists := by
  have hcases : w.dashExists = true ∧ w.bakExists = false
      ∨ w.dashExists = false ∧ w.bakExists = true := by
    cases hd : w.dashExists <;> cases hb : w.bakExists <;> simp_all
  rcases hcases with ⟨hd, hb⟩ | ⟨hd, hb⟩ <;>
    refine ⟨?_, ?_, ?_, ?_⟩ <;> simp [toggleOculusKiller, hd, hb]

/-- Witness for c3_enable_twice_idempotent on the blank world (live file
present, no backup). -/
theorem c3_enable_twice_idempotent_witness :
    (toggleOculusKiller true (toggleOculusKiller true World.init)).bakExists = true
    ∧ (toggleOculusKiller true (toggleOculusKiller true World.init)).dashExists
        = false :=
  (fun h => ⟨h.1, h.2.1⟩)
    (c3_enable_twice_idempotent World.init (by simp [World.init]))

/-- C9 counterexample: restarting OculusClient.exe (an Oculus-family
process) or vrcompositor.exe (a Steam-family process) spawns no launch
path at all, contradicting the claim that every process name gets its
family's executable spawned after the kill and the delay. -/
theorem c9_restart_counterexample :
    (restartProcess "OculusClient.exe").spawned = none
    ∧ (restartProcess "vrcompositor.exe").spawned = none := by
  exact ⟨rfl, rfl⟩

/-- C9 amended: restart force-terminates exactly the named process, waits
the fixed 500 ms delay, and then spawns the Oculus runtime executable
only when the name contains OVRServer, the SteamVR server executable only
when it does not but contains vrserver, and nothing for any other name. -/
theorem c9_restart_spawn (name : String) :
    (restartProcess name).killed = name
    ∧ (restartProcess name).delayMs = 500
    ∧ (strContains name "OVRServer" = true →
        (restartProcess name).spawned = some oculusRuntimePath)
    ∧ (strContains name "OVRServer" = false →
        strContains name "vrserver" = true →
        (restartProcess name).spawned = some steamVRServerPath)
    ∧ (strContains name "OVRServer" = false →
        strContains name "vrserver" = false →
        (restartProcess name).spawned = none) := by
  refine ⟨rfl, rfl,
    fun h => by simp [restartProcess, h],
    fun h1 h2 => by simp [restartProcess, h1, h2],
    fun h1 h2 => by simp [restartProcess, h1, h2]⟩

/-- Witness for c9_restart_spawn on the two server process names. -/
theorem c9_restart_spawn_witness :
    (restartProcess "OVRServer_x64.exe").spawned = some oculusRuntimePath
    ∧ (restartProcess "vrserver.exe").spawned = some steamVRServerPath :=
  ⟨(c9_restart_spawn "OVRServer_x64.exe").2.2.1 (by decide),
   (c9_restart_spawn "vrserver.exe").2.2.2.1 (by decide) (by decide)⟩

/-- C1 counterexample: at link_sharpening = 1/8 (exactly representable in
f32, with an exact product 12.5) the encode step writes strength 12, the
truncation of 12.5, while round(1/8 * 100) = 13, so the strength written
is not round(link_sharpening * 100). -/
theorem c1_link_strength_counterexample :
    (applyOculusLinkSettings { defaultVRSettings with link_sharpening := 1/8 }
        World.init).sharpStrength = some 12
    ∧ round (((1 : ℚ)/8) * 100) = 13 := by
  have e1 : ({ defaultVRSettings with link_sharpening := 1/8 }
      : VRSettings).link_sharpening * 100 = 25/2 := by norm_num
  have efl : ⌊(25/2 : ℚ)⌋ = 12 := by rw [Int.floor_eq_iff] <;> norm_num
  have e2 : rustAsU32 (25/2) = 12 := by
    unfold rustAsU32
    rw [if_neg (by norm_num), efl]
    rfl
  have e0 : (applyOculusLinkSettings
        { defaultVRSettings with link_sharpening := 1/8 } World.init).sharpStrength
      = some (rustAsU32 (({ defaultVRSettings with link_sharpening := 1/8 }
          : VRSettings).link_sharpening * 100)) := rfl
  constructor
  · rw [e0, e1, e2]
  · rw [round_eq]
    rw [show ((1:ℚ)/8) * 100 + 1/2 = 13 by norm_num]
    rw [Int.floor_eq_iff] <;> norm_num

/-- C1 amended: the encode step writes the sharpening-enabled flag as 1
exactly when link_sharpening is positive and 0 otherwise, and writes the
strength as the truncation (floor, over the nonnegative slider range
0 to 1) of link_sharpening * 100 - the Rust cast (x * 100.0) as u32 -
not its rounding; bitrate and resolution are written unmodified. -/
theorem c1_link_sharpening_encode (s : VRSettings) (w : World)
    (h0 : 0 ≤ s.link_sharpening) (h1 : s.link_sharpening ≤ 1) :
    ((applyOculusLinkSettings s w).sharpEnabled = some 1
        ↔ 0 < s.link_sharpening)
    ∧ ((applyOculusLinkSettings s w).sharpEnabled = some 0
        ↔ s.link_sharpening ≤ 0)
    ∧ (applyOculusLinkSettings s w).sharpStrength
        = some (Int.toNat ⌊s.link_sharpening * 100⌋)
    ∧ (applyOculusLinkSettings s w).bitrate = some s.encode_bitrate_mbps
    ∧ (applyOculusLinkSettings s w).encodeWidth
        = some s.encode_resolution_width
    ∧ (applyOculusLinkSettings s w).encodeHeight
        = some s.encode_resolution_height := by
  have hnn : 0 ≤ s.link_sharpening * 100 := by positivity
  have h100 : s.link_sharpening * 100 ≤ 100 := by nlinarith
  have hfl : ⌊s.link_sharpening * 100⌋ ≤ 100 := by
    calc ⌊s.link_sharpening * 100⌋ ≤ ⌊(100 : ℚ)⌋ := Int.floor_mono h100
      _ = 100 := by norm_num
  refine ⟨?_, ?_, ?_, rfl, rfl, rfl⟩
  · by_cases hpos : 0 < s.link_sharpening <;>
      simp [applyOculusLinkSettings, hpos]
  · by_cases hpos : 0 < s.link_sharpening <;>
      simp [applyOculusLinkSettings, hpos, not_lt.mp, le_of_lt, not_le.mpr]
  · have hmin : Int.toNat ⌊s.link_sharpening * 100⌋ ≤ 4294967295 := by omega
    simp [applyOculusLinkSettings, rustAsU32, not_lt.mpr hnn,
      Nat.min_eq_left hmin]

/-- Witness for c1_link_sharpening_encode at the default record
(link_sharpening = 0.5): flag 1, strength 50. -/
theorem c1_link_sharpening_encode_witness :
    (applyOculusLinkSettings defaultVRSettings World.init).sharpEnabled = some 1
    ∧ (applyOculusLinkSettings defaultVRSettings World.init).sharpStrength
        = some 50 := by
  have h := c1_link_sharpening_encode defaultVRSettings World.init
    (by norm_num [defaultVRSettings]) (by norm_num [defaultVRSettings])
  refine ⟨h.1.mpr (by norm_num [defaultVRSettings]), h.2.2.1.trans ?_⟩
  rw [show defaultVRSettings.link_sharpening * 100 = 50 by
    norm_num [defaultVRSettings]]
  rw [show ⌊(50 : ℚ)⌋ = 50 by rw [Int.floor_eq_iff] <;> norm_num]
  rfl

/-- C6: a poll yields exactly one snapshot row per catalog name, in
catalog order; a row whose name is found in the OS table is Running with
the OS-reported pid and live cpu/memory values; a row whose name is not
found is Stopped with pid none, cpu 0 and memory 0; no row is ever Frozen
or Restarting. -/
theorem c6_update_processes (table : List OSProc) :
    (updateProcesses table).length = 5
    ∧ (∀ i e, (updateProcesses table).get? i = some e →
        vrProcesses.get? i = some e.name
        ∧ (∀ p, processesByName table e.name = some p →
            e.status = ProcessStatus.Running ∧ e.pid = some p.pid
            ∧ e.cpu_usage = p.cpu_usage
            ∧ e.memory_mb = p.memory / 1024 / 1024)
        ∧ (processesByName table e.name = none →
            e.status = ProcessStatus.Stopped ∧ e.pid = none
            ∧ e.cpu_usage = 0 ∧ e.memory_mb = 0)
        ∧ e.status ≠ ProcessStatus.Frozen
        ∧ e.status ≠ ProcessStatus.Restarting) := by
  constructor
  · simp [updateProcesses, vrProcesses]
  · intro i e he
    have hmap : (vrProcesses.get? i).map (processEntry table) = some e := by
      simpa [updateProcesses, List.get?_map] using he
    rcases hv : vrProcesses.get? i with _ | n
    · rw [hv] at hmap; simp at hmap
    · rw [hv] at hmap
      simp only [Option.map_some'] at hmap
      obtain rfl : processEntry table n = e := by injection hmap
      refine ⟨by rw [processEntry_name], ?_, ?_, ?_, ?_⟩
      · intro p hp
        rw [processEntry_name] at hp
        simp [processEntry, hp]
      · intro hp
        rw [processEntry_name] at hp
        simp [processEntry, hp]
      · cases hq : processesByName table n <;> simp [processEntry, hq]
      · cases hq : processesByName table n <;> simp [processEntry, hq]

/-- Witness for c6_update_processes on a one-row OS table holding
vrserver.exe: the third row reports Running with pid 7 and memory 2 MB,
and the snapshot has five rows. -/
theorem c6_update_processes_witness :
    (updateProcesses [⟨"vrserver.exe", 7, 3, 2097152⟩]).length = 5
    ∧ (processEntry [⟨"vrserver.exe", 7, 3, 2097152⟩] "vrserver.exe").status
        = ProcessStatus.Running
    ∧ (processEntry [⟨"vrserver.exe", 7, 3, 2097152⟩] "vrserver.exe").pid
        = some 7
    ∧ (processEntry [⟨"vrserver.exe", 7, 3, 2097152⟩] "vrserver.exe").memory_mb
        = 2 := by
  have h := c6_update_processes [⟨"vrserver.exe", 7, 3, 2097152⟩]
  have h2 := (h.2 2 (processEntry [⟨"vrserver.exe", 7, 3, 2097152⟩]
      "vrserver.exe") (by rfl)).2.1 ⟨"vrserver.exe", 7, 3, 2097152⟩
    (by rw [processEntry_name]; rfl)
  exact ⟨h.1, h2.1, h2.2.1, by rw [h2.2.2.2]; decide⟩

/-- Decoding a serialized u32 field recovers the value when it is in u32
range. -/
theorem asU32_natCast (n : Nat) (h : n < 4294967296) :
    Json.asU32 (Json.num (n : ℚ)) = some n := by
  have hcond : 0 ≤ ((n : ℚ)).num ∧ ((n : ℚ)).den = 1
      ∧ ((n : ℚ)).num < 4294967296 := by
    refine ⟨?_, ?_, ?_⟩
    · rw [Rat.num_natCast]; exact Int.natCast_nonneg n
    · rw [Rat.den_natCast]
    · rw [Rat.num_natCast]; exact_mod_cast h
  show (if 0 ≤ ((n : ℚ)).num ∧ ((n : ℚ)).den = 1
          ∧ ((n : ℚ)).num < 4294967296
        then some ((n : ℚ)).num.toNat else none) = some n
  rw [if_pos hcond, Rat.num_natCast, Int.toNat_natCast]

/-- ASWMode serialization round trip. -/
theorem decodeASWMode_encode (m : ASWMode) :
    decodeASWMode (encodeASWMode m) = some m := by
  cases m <;> rfl

/-- FoveatedLevel serialization round trip. -/
theorem decodeFoveatedLevel_encode (m : FoveatedLevel) :
    decodeFoveatedLevel (encodeFoveatedLevel m) = some m := by
  cases m <;> rfl

/-- GPUPriority serialization round trip. -/
theorem decodeGPUPriority_encode (m : GPUPriority) :
    decodeGPUPriority (encodeGPUPriority m) = some m := by
  cases m <;> rfl

/-- UpscalingType serialization round trip. -/
theorem decodeUpscalingType_encode (m : UpscalingType) :
    decodeUpscalingType (encodeUpscalingType m) = some m := by
  cases m <;> rfl

/-- PowerPlan serialization round trip. -/
theorem decodePowerPlan_encode (m : PowerPlan) :
    decodePowerPlan (encodePowerPlan m) = some m := by
  cases m <;> rfl

/-- Field lookup in the encoded member list: render_scale. -/
theorem findField_enc_render_scale (s : VRSettings) :
    findField (encodeSettingsFields s) "render_scale" = some (Json.num s.render_scale) := rfl

/-- Field lookup in the encoded member list: use_openxr. -/
theorem findField_enc_use_openxr (s : VRSettings) :
    findField (encodeSettingsFields s) "use_openxr" = some (Json.bool s.use_openxr) := rfl

/-- Field lookup in the encoded member list: use_steamvr. -/
theorem findField_enc_use_steamvr (s : VRSettings) :
    findField (encodeSettingsFields s) "use_steamvr" = some (Json.bool s.use_steamvr) := rfl

/-- Field lookup in the encoded member list: encode_bitrate_mbps. -/
theorem findField_enc_encode_bitrate_mbps (s : VRSettings) :
    findField (encodeSettingsFields s) "encode_bitrate_mbps" = some (Json.num (s.encode_bitrate_mbps : ℚ)) := rfl

/-- Field lookup in the encoded member list: encode_resolution_width. -/
theorem findField_enc_encode_resolution_width (s : VRSettings) :
    findField (encodeSettingsFields s) "encode_resolution_width" = some (Json.num (s.encode_resolution_width : ℚ)) := rfl

/-- Field lookup in the encoded member list: encode_resolution_height. -/
theorem findField_enc_encode_resolution_height (s : VRSettings) :
    findField (encodeSettingsFields s) "encode_resolution_height" = some (Json.num (s.encode_resolution_height : ℚ)) := rfl

/-- Field lookup in the encoded member list: link_sharpening. -/
theorem findField_enc_link_sharpening (s : VRSettings) :
    findField (encodeSettingsFields s) "link_sharpening" = some (Json.num s.link_sharpening) := rfl

/-- Field lookup in the encoded member list: asw_enabled. -/
theorem findField_enc_asw_enabled (s : VRSettings) :
    findField (encodeSettingsFields s) "asw_enabled" = some (Json.bool s.asw_enabled) := rfl

/-- Field lookup in the encoded member list: asw_mode. -/
theorem findField_enc_asw_mode (s : VRSettings) :
    findField (encodeSettingsFields s) "asw_mode" = some (encodeASWMode s.asw_mode) := rfl

/-- Field lookup in the encoded member list: foveated_rendering. -/
theorem findField_enc_foveated_rendering (s : VRSettings) :
    findField (encodeSettingsFields s) "foveated_rendering" = some (Json.bool s.foveated_rendering) := rfl

/-- Field lookup in the encoded member list: foveated_level. -/
theorem findField_enc_foveated_level (s : VRSettings) :
    findField (encodeSettingsFields s) "foveated_level" = some (encodeFoveatedLevel s.foveated_level) := rfl

/-- Field lookup in the encoded member list: cpu_priority_boost. -/
theorem findField_enc_cpu_priority_boost (s : VRSettings) :
    findField (encodeSettingsFields s) "cpu_priority_boost" = some (Json.bool s.cpu_priority_boost) := rfl

/-- Field lookup in the encoded member list: gpu_priority. -/
theorem findField_enc_gpu_priority (s : VRSettings) :
    findField (encodeSettingsFields s) "gpu_priority" = some (encodeGPUPriority s.gpu_priority) := rfl

/-- Field lookup in the encoded member list: pixel_density. -/
theorem findField_enc_pixel_density (s : VRSettings) :
    findField (encodeSettingsFields s) "pixel_density" = some (Json.num s.pixel_density) := rfl

/-- Field lookup in the encoded member list: fov_scale. -/
theorem findField_enc_fov_scale (s : VRSettings) :
    findField (encodeSettingsFields s) "fov_scale" = some (Json.num s.fov_scale) := rfl

/-- Field lookup in the encoded member list: force_composition_layers. -/
theorem findField_enc_force_composition_layers (s : VRSettings) :
    findField (encodeSettingsFields s) "force_composition_layers" = some (Json.bool s.force_composition_layers) := rfl

/-- Field lookup in the encoded member list: disable_depth_submission. -/
theorem findField_enc_disable_depth_submission (s : VRSettings) :
    findField (encodeSettingsFields s) "disable_depth_submission" = some (Json.bool s.disable_depth_submission) := rfl

/-- Field lookup in the encoded member list: turbo_mode. -/
theorem findField_enc_turbo_mode (s : VRSettings) :
    findField (encodeSettingsFields s) "turbo_mode" = some (Json.bool s.turbo_mode) := rfl

/-- Field lookup in the encoded member list: auto_restart_on_freeze. -/
theorem findField_enc_auto_restart_on_freeze (s : VRSettings) :
    findField (encodeSettingsFields s) "auto_restart_on_freeze" = some (Json.bool s.auto_restart_on_freeze) := rfl

/-- Field lookup in the encoded member list: kill_oculus_client. -/
theorem findField_enc_kill_oculus_client (s : VRSettings) :
    findField (encodeSettingsFields s) "kill_oculus_client" = some (Json.bool s.kill_oculus_client) := rfl

/-- Field lookup in the encoded member list: restart_threshold_seconds. -/
theorem findField_enc_restart_threshold_seconds (s : VRSettings) :
    findField (encodeSettingsFields s) "restart_threshold_seconds" = some (Json.num (s.restart_threshold_seconds : ℚ)) := rfl

/-- Field lookup in the encoded member list: upscaling_enabled. -/
theorem findField_enc_upscaling_enabled (s : VRSettings) :
    findField (encodeSettingsFields s) "upscaling_enabled" = some (Json.bool s.upscaling_enabled) := rfl

/-- Field lookup in the encoded member list: upscaling_type. -/
theorem findField_enc_upscaling_type (s : VRSettings) :
    findField (encodeSettingsFields s) "upscaling_type" = some (encodeUpscalingType s.upscaling_type) := rfl

/-- Field lookup in the encoded member list: upscaling_scale. -/
theorem findField_enc_upscaling_scale (s : VRSettings) :
    findField (encodeSettingsFields s) "upscaling_scale" = some (Json.num s.upscaling_scale) := rfl

/-- Field lookup in the encoded member list: sharpening_amount. -/
theorem findField_enc_sharpening_amount (s : VRSettings) :
    findField (encodeSettingsFields s) "sharpening_amount" = some (Json.num s.sharpening_amount) := rfl

/-- Field lookup in the encoded member list: contrast. -/
theorem findField_enc_contrast (s : VRSettings) :
    findField (encodeSettingsFields s) "contrast" = some (Json.num s.contrast) := rfl

/-- Field lookup in the encoded member list: saturation. -/
theorem findField_enc_saturation (s : VRSettings) :
    findField (encodeSettingsFields s) "saturation" = some (Json.num s.saturation) := rfl

/-- Field lookup in the encoded member list: frame_throttle_fps. -/
theorem findField_enc_frame_throttle_fps (s : VRSettings) :
    findField (encodeSettingsFields s) "frame_throttle_fps" = some (Json.num (s.frame_throttle_fps : ℚ)) := rfl

/-- Field lookup in the encoded member list: shake_reduction. -/
theorem findField_enc_shake_reduction (s : VRSettings) :
    findField (encodeSettingsFields s) "shake_reduction" = some (Json.bool s.shake_reduction) := rfl

/-- Field lookup in the encoded member list: audio_switching. -/
theorem findField_enc_audio_switching (s : VRSettings) :
    findField (encodeSettingsFields s) "audio_switching" = some (Json.bool s.audio_switching) := rfl

/-- Field lookup in the encoded member list: super_sampling. -/
theorem findField_enc_super_sampling (s : VRSettings) :
    findField (encodeSettingsFields s) "super_sampling" = some (Json.num s.super_sampling) := rfl

/-- Field lookup in the encoded member list: mirror_window. -/
theorem findField_enc_mirror_window (s : VRSettings) :
    findField (encodeSettingsFields s) "mirror_window" = some (Json.bool s.mirror_window) := rfl

/-- Field lookup in the encoded member list: guardian_visibility. -/
theorem findField_enc_guardian_visibility (s : VRSettings) :
    findField (encodeSettingsFields s) "guardian_visibility" = some (Json.bool s.guardian_visibility) := rfl

/-- Field lookup in the encoded member list: cpu_affinity. -/
theorem findField_enc_cpu_affinity (s : VRSettings) :
    findField (encodeSettingsFields s) "cpu_affinity" = some (Json.num (s.cpu_affinity : ℚ)) := rfl

/-- Field lookup in the encoded member list: power_plan. -/
theorem findField_enc_power_plan (s : VRSettings) :
    findField (encodeSettingsFields s) "power_plan" = some (encodePowerPlan s.power_plan) := rfl

/-- Field lookup in the encoded member list: oculus_killer_enabled. -/
theorem findField_enc_oculus_killer_enabled (s : VRSettings) :
    findField (encodeSettingsFields s) "oculus_killer_enabled" = some (Json.bool s.oculus_killer_enabled) := rfl

/-- Field lookup in the encoded member list: relinked_mode. -/
theorem findField_enc_relinked_mode (s : VRSettings) :
    findField (encodeSettingsFields s) "relinked_mode" = some (Json.bool s.relinked_mode) := rfl

/-- Field lookup in the encoded member list: disable_asw. -/
theorem findField_enc_disable_asw (s : VRSettings) :
    findField (encodeSettingsFields s) "disable_asw" = some (Json.bool s.disable_asw) := rfl

/-- Field lookup in the encoded member list: enable_steamvr_autostart. -/
theorem findField_enc_enable_steamvr_autostart (s : VRSettings) :
    findField (encodeSettingsFields s) "enable_steamvr_autostart" = some (Json.bool s.enable_steamvr_autostart) := rfl

/-- Field lookup in the encoded member list: enable_runtime_high_priority. -/
theorem findField_enc_enable_runtime_high_priority (s : VRSettings) :
    findField (encodeSettingsFields s) "enable_runtime_high_priority" = some (Json.bool s.enable_runtime_high_priority) := rfl

/-- Field lookup in the encoded member list: allow_other_software. -/
theorem findField_enc_allow_other_software (s : VRSettings) :
    findField (encodeSettingsFields s) "allow_other_software" = some (Json.bool s.allow_other_software) := rfl

/-- Field lookup in the encoded member list: custom_startup_program. -/
theorem findField_enc_custom_startup_program (s : VRSettings) :
    findField (encodeSettingsFields s) "custom_startup_program" = some (Json.str s.custom_startup_program) := rfl

/-- Field lookup in the encoded member list: custom_fps. -/
theorem findField_enc_custom_fps (s : VRSettings) :
    findField (encodeSettingsFields s) "custom_fps" = some (Json.num (s.custom_fps : ℚ)) := rfl

/-- Field lookup in the encoded member list: disable_oled_mura. -/
theorem findField_enc_disable_oled_mura (s : VRSettings) :
    findField (encodeSettingsFields s) "disable_oled_mura" = some (Json.bool s.disable_oled_mura) := rfl

/-- Field lookup in the encoded member list: debug_logging. -/
theorem findField_enc_debug_logging (s : VRSettings) :
    findField (encodeSettingsFields s) "debug_logging" = some (Json.bool s.debug_logging) := rfl

/-- Field lookup in the encoded member list: disable_telemetry. -/
theorem findField_enc_disable_telemetry (s : VRSettings) :
    findField (encodeSettingsFields s) "disable_telemetry" = some (Json.bool s.disable_telemetry) := rfl

/-- Field lookup in the encoded member list: disable_login. -/
theorem findField_enc_disable_login (s : VRSettings) :
    findField (encodeSettingsFields s) "disable_login" = some (Json.bool s.disable_login) := rfl

/-- Chunk 1 of the round trip: decoding the encoded member list
recovers fields 1 to 8. -/
theorem decodeSettingsPart1_enc (s : VRSettings)
    (h1 : s.encode_bitrate_mbps < 4294967296)
    (h2 : s.encode_resolution_width < 4294967296)
    (h3 : s.encode_resolution_height < 4294967296) :
    decodeSettingsPart1 (encodeSettingsFields s)
      = some ⟨s.render_scale, s.use_openxr, s.use_steamvr, s.encode_bitrate_mbps, s.encode_resolution_width, s.encode_resolution_height, s.link_sharpening, s.asw_enabled⟩ := by
  have e1 : (findField (encodeSettingsFields s) "render_scale").bind
      Json.asF32 = some s.render_scale := by
    rw [findField_enc_render_scale]; rfl
  have e2 : (findField (encodeSettingsFields s) "use_openxr").bind
      Json.asBool = some s.use_openxr := by
    rw [findField_enc_use_openxr]; rfl
  have e3 : (findField (encodeSettingsFields s) "use_steamvr").bind
      Json.asBool = some s.use_steamvr := by
    rw [findField_enc_use_steamvr]; rfl
  have e4 : (findField (encodeSettingsFields s) "encode_bitrate_mbps").bind
      Json.asU32 = some s.encode_bitrate_mbps := by
    rw [findField_enc_encode_bitrate_mbps, Option.some_bind, asU32_natCast _ h1]
  have e5 : (findField (encodeSettingsFields s) "encode_resolution_width").bind
      Json.asU32 = some s.encode_resolution_width := by
    rw [findField_enc_encode_resolution_width, Option.some_bind, asU32_natCast _ h2]
  have e6 : (findField (encodeSettingsFields s) "encode_resolution_height").bind
      Json.asU32 = some s.encode_resolution_height := by
    rw [findField_enc_encode_resolution_height, Option.some_bind, asU32_natCast _ h3]
  have e7 : (findField (encodeSettingsFields s) "link_sharpening").bind
      Json.asF32 = some s.link_sharpening := by
    rw [findField_enc_link_sharpening]; rfl
  have e8 : (findField (encodeSettingsFields s) "asw_enabled").bind
      Json.asBool = some s.asw_enabled := by
    rw [findField_enc_asw_enabled]; rfl
  unfold decodeSettingsPart1
  rw [e1, e2, e3, e4, e5, e6, e7, e8]; rfl

/-- Chunk 2 of the round trip: decoding the encoded member list
recovers fields 9 to 16. -/
theorem decodeSettingsPart2_enc (s : VRSettings) :
    decodeSettingsPart2 (encodeSettingsFields s)
      = some ⟨s.asw_mode, s.foveated_rendering, s.foveated_level, s.cpu_priority_boost, s.gpu_priority, s.pixel_density, s.fov_scale, s.force_composition_layers⟩ := by
  have e1 : (findField (encodeSettingsFields s) "asw_mode").bind
      decodeASWMode = some s.asw_mode := by
    rw [findField_enc_asw_mode, Option.some_bind, decodeASWMode_encode]
  have e2 : (findField (encodeSettingsFields s) "foveated_rendering").bind
      Json.asBool = some s.foveated_rendering := by
    rw [findField_enc_foveated_rendering]; rfl
  have e3 : (findField (encodeSettingsFields s) "foveated_level").bind
      decodeFoveatedLevel = some s.foveated_level := by
    rw [findField_enc_foveated_level, Option.some_bind, decodeFoveatedLevel_encode]
  have e4 : (findField (encodeSettingsFields s) "cpu_priority_boost").bind
      Json.asBool = some s.cpu_priority_boost := by
    rw [findField_enc_cpu_priority_boost]; rfl
  have e5 : (findField (encodeSettingsFields s) "gpu_priority").bind
      decodeGPUPriority = some s.gpu_priority := by
    rw [findField_enc_gpu_priority, Option.some_bind, decodeGPUPriority_encode]
  have e6 : (findField (encodeSettingsFields s) "pixel_density").bind
      Json.asF32 = some s.pixel_density := by
    rw [findField_enc_pixel_density]; rfl
  have e7 : (findField (encodeSettingsFields s) "fov_scale").bind
      Json.asF32 = some s.fov_scale := by
    rw [findField_enc_fov_scale]; rfl
  have e8 : (findField (encodeSettingsFields s) "force_composition_layers").bind
      Json.asBool = some s.force_composition_layers := by
    rw [findField_enc_force_composition_layers]; rfl
  unfold decodeSettingsPart2
  rw [e1, e2, e3, e4, e5, e6, e7, e8]; rfl

/-- Chunk 3 of the round trip: decoding the encoded member list
recovers fields 17 to 24. -/
theorem decodeSettingsPart3_enc (s : VRSettings)
    (h4 : s.restart_threshold_seconds < 4294967296) :
    decodeSettingsPart3 (encodeSettingsFields s)
      = some ⟨s.disable_depth_submission, s.turbo_mode, s.auto_restart_on_freeze, s.kill_oculus_client, s.restart_threshold_seconds, s.upscaling_enabled, s.upscaling_type, s.upscaling_scale⟩ := by
  have e1 : (findField (encodeSettingsFields s) "disable_depth_submission").bind
      Json.asBool = some s.disable_depth_submission := by
    rw [findField_enc_disable_depth_submission]; rfl
  have e2 : (findField (encodeSettingsFields s) "turbo_mode").bind
      Json.asBool = some s.turbo_mode := by
    rw [findField_enc_turbo_mode]; rfl
  have e3 : (findField (encodeSettingsFields s) "auto_restart_on_freeze").bind
      Json.asBool = some s.auto_restart_on_freeze := by
    rw [findField_enc_auto_restart_on_freeze]; rfl
  have e4 : (findField (encodeSettingsFields s) "kill_oculus_client").bind
      Json.asBool = some s.kill_oculus_client := by
    rw [findField_enc_kill_oculus_client]; rfl
  have e5 : (findField (encodeSettingsFields s) "restart_threshold_seconds").bind
      Json.asU32 = some s.restart_threshold_seconds := by
    rw [findField_enc_restart_threshold_seconds, Option.some_bind, asU32_natCast _ h4]
  have e6 : (findField (encodeSettingsFields s) "upscaling_enabled").bind
      Json.asBool = some s.upscaling_enabled := by
    rw [findField_enc_upscaling_enabled]; rfl
  have e7 : (findField (encodeSettingsFields s) "upscaling_type").bind
      decodeUpscalingType = some s.upscaling_type := by
    rw [findField_enc_upscaling_type, Option.some_bind, decodeUpscalingType_encode]
  have e8 : (findField (encodeSettingsFields s) "upscaling_scale").bind
      Json.asF32 = some s.upscaling_scale := by
    rw [findField_enc_upscaling_scale]; rfl
  unfold decodeSettingsPart3
  rw [e1, e2, e3, e4, e5, e6, e7, e8]; rfl

/-- Chunk 4 of the round trip: decoding the encoded member list
recovers fields 25 to 32. -/
theorem decodeSettingsPart4_enc (s : VRSettings)
    (h5 : s.frame_throttle_fps < 4294967296) :
    decodeSettingsPart4 (encodeSettingsFields s)
      = some ⟨s.sharpening_amount, s.contrast, s.saturation, s.frame_throttle_fps, s.shake_reduction, s.audio_switching, s.super_sampling, s.mirror_window⟩ := by
  have e1 : (findField (encodeSettingsFields s) "sharpening_amount").bind
      Json.asF32 = some s.sharpening_amount := by
    rw [findField_enc_sharpening_amount]; rfl
  have e2 : (findField (encodeSettingsFields s) "contrast").bind
      Json.asF32 = some s.contrast := by
    rw [findField_enc_contrast]; rfl
  have e3 : (findField (encodeSettingsFields s) "saturation").bind
      Json.asF32 = some s.saturation := by
    rw [findField_enc_saturation]; rfl
  have e4 : (findField (encodeSettingsFields s) "frame_throttle_fps").bind
      Json.asU32 = some s.frame_throttle_fps := by
    rw [findField_enc_frame_throttle_fps, Option.some_bind, asU32_natCast _ h5]
  have e5 : (findField (encodeSettingsFields s) "shake_reduction").bind
      Json.asBool = some s.shake_reduction := by
    rw [findField_enc_shake_reduction]; rfl
  have e6 : (findField (encodeSettingsFields s) "audio_switching").bind
      Json.asBool = some s.audio_switching := by
    rw [findField_enc_audio_switching]; rfl
  have e7 : (findField (encodeSettingsFields s) "super_sampling").bind
      Json.asF32 = some s.super_sampling := by
    rw [findField_enc_super_sampling]; rfl
  have e8 : (findField (encodeSettingsFields s) "mirror_window").bind
      Json.asBool = some s.mirror_window := by
    rw [findField_enc_mirror_window]; rfl
  unfold decodeSettingsPart4
  rw [e1, e2, e3, e4, e5, e6, e7, e8]; rfl

/-- Chunk 5 of the round trip: decoding the encoded member list
recovers fields 33 to 40. -/
theorem decodeSettingsPart5_enc (s : VRSettings)
    (h6 : s.cpu_affinity < 4294967296) :
    decodeSettingsPart5 (encodeSettingsFields s)
      = some ⟨s.guardian_visibility, s.cpu_affinity, s.power_plan, s.oculus_killer_enabled, s.relinked_mode, s.disable_asw, s.enable_steamvr_autostart, s.enable_runtime_high_priority⟩ := by
  have e1 : (findField (encodeSettingsFields s) "guardian_visibility").bind
      Json.asBool = some s.guardian_visibility := by
    rw [findField_enc_guardian_visibility]; rfl
  have e2 : (findField (encodeSettingsFields s) "cpu_affinity").bind
      Json.asU32 = some s.cpu_affinity := by
    rw [findField_enc_cpu_affinity, Option.some_bind, asU32_natCast _ h6]
  have e3 : (findField (encodeSettingsFields s) "power_plan").bind
      decodePowerPlan = some s.power_plan := by
    rw [findField_enc_power_plan, Option.some_bind, decodePowerPlan_encode]
  have e4 : (findField (encodeSettingsFields s) "oculus_killer_enabled").bind
      Json.asBool = some s.oculus_killer_enabled := by
    rw [findField_enc_oculus_killer_enabled]; rfl
  have e5 : (findField (encodeSettingsFields s) "relinked_mode").bind
      Json.asBool = some s.relinked_mode := by
    rw [findField_enc_relinked_mode]; rfl
  have e6 : (findField (encodeSettingsFields s) "disable_asw").bind
      Json.asBool = some s.disable_asw := by
    rw [findField_enc_disable_asw]; rfl
  have e7 : (findField (encodeSettingsFields s) "enable_steamvr_autostart").bind
      Json.asBool = some s.enable_steamvr_autostart := by
    rw [findField_enc_enable_steamvr_autostart]; rfl
  have e8 : (findField (encodeSettingsFields s) "enable_runtime_high_priority").bind
      Json.asBool = some s.enable_runtime_high_priority := by
    rw [findField_enc_enable_runtime_high_priority]; rfl
  unfold decodeSettingsPart5
  rw [e1, e2, e3, e4, e5, e6, e7, e8]; rfl

/-- Chunk 6 of the round trip: decoding the encoded member list
recovers fields 41 to 47. -/
theorem decodeSettingsPart6_enc (s : VRSettings)
    (h7 : s.custom_fps < 4294967296) :
    decodeSettingsPart6 (encodeSettingsFields s)
      = some ⟨s.allow_other_software, s.custom_startup_program, s.custom_fps, s.disable_oled_mura, s.debug_logging, s.disable_telemetry, s.disable_login⟩ := by
  have e1 : (findField (encodeSettingsFields s) "allow_other_software").bind
      Json.asBool = some s.allow_other_software := by
    rw [findField_enc_allow_other_software]; rfl
  have e2 : (findField (encodeSettingsFields s) "custom_startup_program").bind
      Json.asStr = some s.custom_startup_program := by
    rw [findField_enc_custom_startup_program]; rfl
  have e3 : (findField (encodeSettingsFields s) "custom_fps").bind
      Json.asU32 = some s.custom_fps := by
    rw [findField_enc_custom_fps, Option.some_bind, asU32_natCast _ h7]
  have e4 : (findField (encodeSettingsFields s) "disable_oled_mura").bind
      Json.asBool = some s.disable_oled_mura := by
    rw [findField_enc_disable_oled_mura]; rfl
  have e5 : (findField (encodeSettingsFields s) "debug_logging").bind
      Json.asBool = some s.debug_logging := by
    rw [findField_enc_debug_logging]; rfl
  have e6 : (findField (encodeSettingsFields s) "disable_telemetry").bind
      Json.asBool = some s.disable_telemetry := by
    rw [findField_enc_disable_telemetry]; rfl
  have e7 : (findField (encodeSettingsFields s) "disable_login").bind
      Json.asBool = some s.disable_login := by
    rw [findField_enc_disable_login]; rfl
  unfold decodeSettingsPart6
  rw [e1, e2, e3, e4, e5, e6, e7]; rfl

/-- Whole-record serialization round trip: decoding an encoded record
recovers it exactly, given the u32 range invariant. -/
theorem decode_encode_settings (s : VRSettings) (h : s.wfU32) :
    decodeVRSettings (encodeVRSettings s) = some s := by
  obtain ⟨h1, h2, h3, h4, h5, h6, h7⟩ := h
  simp [decodeVRSettings, encodeVRSettings,
    decodeSettingsPart1_enc s h1 h2 h3, decodeSettingsPart2_enc s,
    decodeSettingsPart3_enc s h4, decodeSettingsPart4_enc s h5,
    decodeSettingsPart5_enc s h6, decodeSettingsPart6_enc s h7]

/-- C4: for every settings record that serializes successfully (every u32
field in range, as the Rust type system guarantees), save followed by
load returns a record equal in every field to the one saved. -/
theorem c4_save_load_roundtrip (s : VRSettings) (h : s.wfU32) (w : World) :
    loadSettings (saveSettings s w) = s := by
  simp [loadSettings, saveSettings, decode_encode_settings s h]

/-- Witness for c4_save_load_roundtrip on the default record. -/
theorem c4_save_load_roundtrip_witness :
    loadSettings (saveSettings defaultVRSettings World.init)
      = defaultVRSettings :=
  c4_save_load_roundtrip defaultVRSettings
    (by norm_num [VRSettings.wfU32, defaultVRSettings]) World.init

/-- C5: loading from a missing file yields the hardcoded default record;
loading from any document that fails to decode as a whole (including an
otherwise complete document with one required field missing, since
missing fields are not individually defaulted) yields the default record
with no partial merge; and an unknown member in a document never changes
what the decoder produces. -/
theorem c5_load_failure_defaults :
    (∀ w, w.settingsFile = none → loadSettings w = defaultVRSettings)
    ∧ (∀ w j, w.settingsFile = some j → decodeVRSettings j = none →
        loadSettings w = defaultVRSettings)
    ∧ (∀ k v kvs, k ∉ settingsFieldNames →
        decodeVRSettings (Json.obj ((k, v) :: kvs))
          = decodeVRSettings (Json.obj kvs))
    ∧ decodeVRSettings (objDropFirst (encodeVRSettings defaultVRSettings))
        = none := by
  refine ⟨?_, ?_, ?_, ?_⟩
  · intro w hw
    simp [loadSettings, hw]
  · intro w j hw hj
    simp [loadSettings, hw, hj]
  · intro k v kvs hk
    simp only [settingsFieldNames, List.mem_cons, List.not_mem_nil, or_false,
      not_or] at hk
    obtain ⟨n1, n2, n3, n4, n5, n6, n7, n8, n9, n10, n11, n12, n13, n14, n15, n16, n17, n18, n19, n20, n21, n22, n23, n24, n25, n26, n27, n28, n29, n30, n31, n32, n33, n34, n35, n36, n37, n38, n39, n40, n41, n42, n43, n44, n45, n46, n47⟩ := hk
    simp only [decodeVRSettings, decodeSettingsPart1, decodeSettingsPart2,
      decodeSettingsPart3, decodeSettingsPart4, decodeSettingsPart5,
      decodeSettingsPart6, findField_cons_ne n1, findField_cons_ne n2, findField_cons_ne n3, findField_cons_ne n4, findField_cons_ne n5, findField_cons_ne n6, findField_cons_ne n7, findField_cons_ne n8, findField_cons_ne n9, findField_cons_ne n10, findField_cons_ne n11, findField_cons_ne n12, findField_cons_ne n13, findField_cons_ne n14, findField_cons_ne n15, findField_cons_ne n16, findField_cons_ne n17, findField_cons_ne n18, findField_cons_ne n19, findField_cons_ne n20, findField_cons_ne n21, findField_cons_ne n22, findField_cons_ne n23, findField_cons_ne n24, findField_cons_ne n25, findField_cons_ne n26, findField_cons_ne n27, findField_cons_ne n28, findField_cons_ne n29, findField_cons_ne n30, findField_cons_ne n31, findField_cons_ne n32, findField_cons_ne n33, findField_cons_ne n34, findField_cons_ne n35, findField_cons_ne n36, findField_cons_ne n37, findField_cons_ne n38, findField_cons_ne n39, findField_cons_ne n40, findField_cons_ne n41, findField_cons_ne n42, findField_cons_ne n43, findField_cons_ne n44, findField_cons_ne n45, findField_cons_ne n46, findField_cons_ne n47]
  · rfl

/-- Witness for c5_load_failure_defaults: missing file, empty document,
and an unknown member prepended to the empty document. -/
theorem c5_load_failure_defaults_witness :
    loadSettings World.init = defaultVRSettings
    ∧ loadSettings { World.init with settingsFile := some (Json.obj []) }
        = defaultVRSettings
    ∧ decodeVRSettings (Json.obj [("bogus", Json.null)])
        = decodeVRSettings (Json.obj []) :=
  ⟨c5_load_failure_defaults.1 World.init rfl,
   c5_load_failure_defaults.2.1 _ (Json.obj []) rfl (by rfl),
   c5_load_failure_defaults.2.2.1 "bogus" Json.null [] (by decide)⟩
